import Mathlib

/-!
Shallow embedding of parse-server-sns-adapter (src/SNSPushAdapter.js):
the data model, the payload framers, token exchange, the publish
dispatcher and the top-level send pipeline, together with theorems that
check the specification claims against the code.

Conventions of the embedding: a JavaScript property that may be absent
is modelled as an Option, except for string-valued installation fields
(appIdentifier, topicArn) where the code only distinguishes falsy from
truthy and the empty string models absence.  Asynchronous callbacks
become explicit result values; a Parse.Promise that may resolve, reject
or stay unsettled becomes the POutcome type below.  Calls to the AWS SNS
client are recorded in an explicit trace list.
-/

namespace SNSPush

/-- JSON values as the adapter builds them before JSON.stringify. -/
inductive Json where
  | str : String → Json
  | num : Nat → Json
  | obj : List (String × Json) → Json

/-- Escape a single character of a JSON string literal. -/
def quoteJsonChar (c : Char) : String :=
  if c = '"' then "\\\"" else if c = '\\' then "\\\\" else String.mk [c]

/-- Quote a string as a JSON string literal. -/
def quoteJson (s : String) : String :=
  "\"" ++ String.join (s.data.map quoteJsonChar) ++ "\""

/-- Join a list of strings with commas, as Array.prototype.join does when
a JavaScript array is concatenated into a string. -/
def joinComma : List String → String
  | [] => ""
  | [k] => k
  | k :: rest => k ++ "," ++ joinComma rest

mutual

/-- JSON.stringify on the Json values above. -/
def stringify : Json → String
  | .str s => quoteJson s
  | .num n => toString n
  | .obj kvs => "\x7b" ++ stringifyFields kvs ++ "\x7d"

/-- Serialize the fields of a JSON object, comma separated. -/
def stringifyFields : List (String × Json) → String
  | [] => ""
  | [kv] => quoteJson kv.1 ++ ":" ++ stringify kv.2
  | kv :: rest => quoteJson kv.1 ++ ":" ++ stringify kv.2 ++ "," ++ stringifyFields rest

end

/-- One device installation record, as consumed by the adapter.  The
appIdentifier and topicArn properties may be absent in JavaScript; the
code only ever tests them for falsiness or equality, so the empty string
models absence. -/
structure Device where
  deviceType : String
  deviceToken : String
  appIdentifier : String
  topicArn : String
  deriving DecidableEq

/-- The notification argument of send: a body plus an optional
expiration time. -/
structure NotifData where
  data : Json
  expirationTime : Option Nat

/-- The test device.deviceToken.startsWith("arn") from the source,
computed on the character lists so that it evaluates by kernel
reduction. -/
def startsWithArn (s : String) : Bool :=
  List.isPrefixOf "arn".data s.data

/-- Modelled from the spec: utils.randomString of the external
parse-server-push-adapter utilities returns a random string of the given
length drawn from an alphanumeric charset.  The randomness source is made
explicit as a seed argument. -/
def randomString (n : Nat) (seed : Nat) : String :=
  let charset := "ABCDEFGHIJKLMNOPQRSTUVWXYZabcdefghijklmnopqrstuvwxyz0123456789".data
  String.mk ((List.range n).map (fun i => charset.getD ((seed + i) % charset.length) 'A'))

/-- Modelled from the spec: GCM.generateGCMPayload of the external
parse-server-push-adapter builds the android-native message structure
from the notification body, the idempotency token and the timestamp
(spec 4.3: the structure carries the body plus the token and the
timestamp; nothing else varies between runs on the same input). -/
def generateGCMPayload (coreData : Json) (pushId : String) (timeStamp : Nat) :
    List (String × Json) :=
  [("priority", Json.str "normal"),
   ("data", Json.obj
     [("time", Json.num timeStamp),
      ("push_id", Json.str pushId),
      ("data", Json.str (stringify coreData))])]

/-- Modelled from the spec: APNS.generateNotification(...).compile() of the
external parse-server-push-adapter compiles the provider-native iOS
notification from the body and the expiration time; the claims treat the
result as opaque. -/
def compileAPNS (data : NotifData) : Json :=
  Json.obj [("aps", data.data), ("expiry", Json.num (data.expirationTime.getD 0))]

/-- SNSPushAdapter.generateiOSPayload: wrap the compiled notification
under "APNS" (production) or "APNS_SANDBOX" (sandbox) and add the
"default": "sns" entry. -/
def generateiOSPayload (data : NotifData) (production : Bool) : List (String × Json) :=
  let prefixKey := if production then "APNS" else "APNS_SANDBOX"
  [(prefixKey, compileAPNS data), ("default", Json.str "sns")]

/-- SNSPushAdapter.generateAndroidPayload: build the GCM payload (a fresh
random push id of length 10 and the current time are used when the pushId
and timeStamp arguments are absent), add the "default": "sns" entry and
JSON-stringify the whole structure under the single key "GCM".  The seed
and now arguments make the ambient randomness source and clock
explicit. -/
def generateAndroidPayload (data : NotifData) (pushId : Option String)
    (timeStamp : Option Nat) (seed now : Nat) : List (String × Json) :=
  let pid := pushId.getD (randomString 10 seed)
  let ts := timeStamp.getD now
  let payload := generateGCMPayload data.data pid ts ++ [("default", Json.str "sns")]
  [("GCM", Json.str (stringify (Json.obj payload)))]

/-- Error value handed to an AWS callback: a message plus the optional
stack trace text the code copies into the outcome. -/
structure SnsError where
  message : String
  stack : Option String
  deriving DecidableEq

/-- Data value of a successful createPlatformEndpoint callback. -/
structure CreateData where
  EndpointArn : Option String
  deriving DecidableEq

/-- Result handed to the createPlatformEndpoint callback. -/
structure CreateResult where
  err : Option SnsError
  data : Option CreateData

/-- Result handed to the setEndpointAttributes callback; the data value
is opaque, only its presence matters to the code. -/
structure AttrResult where
  err : Option SnsError
  data : Option Unit

/-- Data value of a successful publish callback. -/
structure PubData where
  MessageId : Option String
  deriving DecidableEq

/-- Result handed to the publish callback. -/
structure PublishResult where
  err : Option SnsError
  data : Option PubData

/-- The publish request object built by sendSNSPayload. -/
structure PublishObject where
  Message : String
  MessageStructure : String
  TargetArn : Option String
  TopicArn : Option String
  deriving DecidableEq

/-- One call issued to the AWS SNS client, recorded in trace order.  The
setAttrs call records the EndpointArn and the Enabled attribute value the
code passes. -/
inductive SnsCall where
  | createEndpoint (platformArn token : String)
  | setAttrs (endpointArn enabled : String)
  | publish (object : PublishObject)
  deriving DecidableEq

/-- The AWS SNS client, modelled as an oracle giving the result each call
would hand to its callback. -/
structure SnsEnv where
  createEndpoint : String → String → CreateResult
  setAttrs : String → AttrResult
  publish : PublishObject → PublishResult

/-- Settlement of a Parse.Promise: resolved, rejected, or never settled
(the code has a path that calls neither resolve nor reject). -/
inductive POutcome (α β : Type) where
  | resolved (a : α)
  | rejected (b : β)
  | pending
  deriving DecidableEq

/-- Whether a promise outcome is a resolution. -/
def POutcome.isResolved : POutcome α β → Bool
  | .resolved _ => true
  | _ => false

/-- The device summary embedded in every outcome record;
deviceToken.toString(hex) on a JavaScript string returns the string
itself, so the token is copied unchanged. -/
structure RespDevice where
  deviceType : String
  deviceToken : String
  deriving DecidableEq

/-- Either the stack text of a failed call or the data value of a
successful publish, as stored in response.response. -/
inductive RespVal where
  | stack (s : String)
  | pubData (d : PubData)
  deriving DecidableEq

/-- The DeliveryOutcome record a settled per-device promise carries. -/
structure DeliveryResponse where
  device : RespDevice
  transmitted : Bool
  response : Option RespVal
  deriving DecidableEq

/-- Build the response.device summary for a device. -/
def respDevice (device : Device) : RespDevice :=
  { deviceType := device.deviceType, deviceToken := device.deviceToken }

/-- Settlement of the publish callback shared by the topic and the
endpoint paths of sendSNSPayload: reject with transmitted false and the
stack text on error, resolve with transmitted true and the data
otherwise. -/
def publishOutcome (rdev : RespDevice) (r : PublishResult) :
    POutcome DeliveryResponse DeliveryResponse :=
  match r.err with
  | some e =>
      POutcome.rejected
        { device := rdev, transmitted := false, response := e.stack.map RespVal.stack }
  | none =>
      POutcome.resolved
        { device := rdev, transmitted := true, response := r.data.map RespVal.pubData }

/-- The object literal built at the top of sendSNSPayload: TargetArn is
the exchanged arn, unless the device token is itself a topic handle, in
which case TargetArn is cleared and TopicArn is the device token. -/
def buildPublishObject (arn : String) (payload : List (String × Json)) (device : Device) :
    PublishObject :=
  let object : PublishObject :=
    { Message := stringify (Json.obj payload), MessageStructure := "json",
      TargetArn := some arn, TopicArn := none }
  if startsWithArn device.deviceToken then
    { object with TargetArn := none, TopicArn := some device.deviceToken }
  else object

/-- SNSPushAdapter.prototype.sendSNSPayload: publish directly when
TopicArn is set; otherwise first call setEndpointAttributes with
Enabled true, reject on its error, publish on a present data value, and
settle nothing when the callback gets neither an error nor data.  Returns
the settlement of the per-device promise and the trace of SNS calls. -/
def sendSNSPayload (env : SnsEnv) (arn : String) (payload : List (String × Json))
    (device : Device) :
    POutcome DeliveryResponse DeliveryResponse × List SnsCall :=
  let object := buildPublishObject arn payload device
  let rdev := respDevice device
  if object.TopicArn.isSome then
    (publishOutcome rdev (env.publish object), [SnsCall.publish object])
  else
    let attrRes := env.setAttrs arn
    match attrRes.err with
    | some e =>
        (POutcome.rejected
          { device := rdev, transmitted := false, response := e.stack.map RespVal.stack },
         [SnsCall.setAttrs arn "true"])
    | none =>
        match attrRes.data with
        | some _ =>
            (publishOutcome rdev (env.publish object),
             [SnsCall.setAttrs arn "true", SnsCall.publish object])
        | none => (POutcome.pending, [SnsCall.setAttrs arn "true"])

/-- Result of one token exchange: the device together with the arn it
resolved to. -/
structure ExchangeResult where
  device : Device
  arn : String
  deriving DecidableEq

/-- JavaScript truthiness of the EndpointArn property: present and not the
empty string. -/
def truthyArn : Option String → Option String
  | none => none
  | some e => if e == "" then none else some e

/-- SNSPushAdapter.prototype.exchangeTokenPromise (with getPlatformArn
inlined): a token that already starts with "arn" resolves immediately to
the topicArn of the device without any SNS call; otherwise one
createPlatformEndpoint call is issued and the promise resolves on a
truthy EndpointArn and rejects with the (possibly absent) error
otherwise. -/
def exchangeTokenPromise (env : SnsEnv) (device : Device) (platformARN : String) :
    Except (Option SnsError) ExchangeResult × List SnsCall :=
  if startsWithArn device.deviceToken then
    (Except.ok { device := device, arn := device.topicArn }, [])
  else
    let r := env.createEndpoint platformARN device.deviceToken
    (match r.data.bind (fun d => truthyArn d.EndpointArn) with
     | some e => Except.ok { device := device, arn := e }
     | none => Except.error r.err,
     [SnsCall.createEndpoint platformARN device.deviceToken])

/-- Successful part of an exchange settlement. -/
def exchangeOk : Except (Option SnsError) ExchangeResult → Option ExchangeResult
  | .ok r => some r
  | .error _ => none

/-- Rejection part of an exchange settlement. -/
def exchangeErr : Except (Option SnsError) ExchangeResult → Option (Option SnsError)
  | .ok _ => none
  | .error e => some e

/-- Whether an exchange settlement is a rejection. -/
def exchangeFailed (r : Except (Option SnsError) ExchangeResult) : Bool :=
  (exchangeOk r).isNone

/-- Concatenation of a list of lists. -/
def concatAll : List (List α) → List α
  | [] => []
  | l :: ls => l ++ concatAll ls

/-- Observable behaviour of one sendToSNS group: the settlement of the
group promise, the trace of SNS calls, and the settlements of the
per-device publish promises.  The group promise resolves to undefined
(modelled as Unit) because the then-callback maps sendSNSPayload over the
exchange responses without returning the mapped promises; the per-device
promises are created but dangle, which deviceOutcomes records. -/
structure GroupResult where
  outcome : Except (List (Option SnsError)) Unit
  calls : List SnsCall
  deviceOutcomes : List (POutcome DeliveryResponse DeliveryResponse)

/-- SNSPushAdapter.prototype.sendToSNS: exchange every device token
(Parse.Promise.when waits for all exchanges), and only when every
exchange resolved run sendSNSPayload for each response; when any exchange
rejected the group promise rejects with the collected errors and no
publish path runs. -/
def sendToSNS (env : SnsEnv) (payload : List (String × Json)) (devices : List Device)
    (platformArn : String) : GroupResult :=
  let exchanges := devices.map (fun device => exchangeTokenPromise env device platformArn)
  let exchangeCalls := concatAll (exchanges.map Prod.snd)
  let results := exchanges.map Prod.fst
  if results.any exchangeFailed then
    { outcome := Except.error (results.filterMap exchangeErr),
      calls := exchangeCalls, deviceOutcomes := [] }
  else
    let sends := (results.filterMap exchangeOk).map
      (fun r => sendSNSPayload env r.arn payload r.device)
    { outcome := Except.ok (),
      calls := exchangeCalls ++ concatAll (sends.map Prod.snd),
      deviceOutcomes := sends.map Prod.fst }

/-- One iOS bundle configuration entry. -/
structure IOSConfig where
  production : Bool
  bundleId : String
  ARN : String
  deriving DecidableEq

/-- The ios entry of snsConfig: a single object or an array of them. -/
inductive IOSPushConfig where
  | single (c : IOSConfig)
  | multiple (cs : List IOSConfig)

/-- The array normalization at the top of sendToAPNS. -/
def normalizeIosConfigs : IOSPushConfig → List IOSConfig
  | .single c => [c]
  | .multiple cs => cs

/-- The android entry of snsConfig. -/
structure AndroidConfig where
  ARN : String
  deriving DecidableEq

/-- The deviceSends loop of sendToAPNS: a device with an empty (absent)
appIdentifier is always included, otherwise it is included exactly when
its appIdentifier equals the bundleId of the configuration. -/
def iosDeviceSends (iosConfig : IOSConfig) (devices : List Device) : List Device :=
  devices.filter (fun device =>
    device.appIdentifier == "" || device.appIdentifier == iosConfig.bundleId)

/-- SNSPushAdapter.prototype.sendToAPNS: one sendToSNS group per bundle
configuration whose filtered device subset is nonempty (the production
flag is read as iosConfig.production with a false default, which the Bool
field models directly). -/
def sendToAPNS (env : SnsEnv) (data : NotifData) (iosPushConfig : IOSPushConfig)
    (devices : List Device) : List GroupResult :=
  (normalizeIosConfigs iosPushConfig).filterMap (fun iosConfig =>
    let payload := generateiOSPayload data iosConfig.production
    let deviceSends := iosDeviceSends iosConfig devices
    if deviceSends.length > 0 then
      some (sendToSNS env payload deviceSends iosConfig.ARN)
    else none)

/-- SNSPushAdapter.prototype.sendToGCM. -/
def sendToGCM (env : SnsEnv) (data : NotifData) (seed now : Nat)
    (androidConfig : AndroidConfig) (devices : List Device) : GroupResult :=
  sendToSNS env (generateAndroidPayload data none none seed now) devices androidConfig.ARN

/-- Parse.Error.PUSH_MISCONFIGURED. -/
def pushMisconfigured : Nat := 115

/-- A Parse.Error thrown by the constructor. -/
structure ParseError where
  code : Nat
  message : String
  deriving DecidableEq

/-- The pushTypes entry of the constructor configuration: the key list of
the object (Object.keys order) together with the ios and android
entries. -/
structure PushTypesConfig where
  keys : List String
  ios : IOSPushConfig
  android : AndroidConfig

/-- The constructor configuration.  Credential strings model the
accessKey and secretKey properties, with the empty string for a falsy or
absent value. -/
structure PushConfig where
  accessKey : String
  secretKey : String
  pushTypes : Option PushTypesConfig

/-- this.validPushTypes of the constructor. -/
def validPushTypes : List String := ["ios", "android"]

/-- The constructed adapter state that the send pipeline reads. -/
structure Adapter where
  availablePushTypes : List String
  iosConfig : IOSPushConfig
  androidConfig : AndroidConfig

/-- The SNSPushAdapter constructor: missing credentials fail first with
the fixed AWS-keys message; then every key of pushTypes is checked
against validPushTypes, and any unsupported key raises PUSH_MISCONFIGURED
with a message that concatenates the whole key array (the source loop
stops at the first unsupported key, but the message and the
success-or-failure outcome do not depend on which key triggered it, so
the all-keys check below is observationally the same). -/
def initAdapter (cfg : PushConfig) : Except ParseError Adapter :=
  if cfg.accessKey == "" || cfg.secretKey == "" then
    Except.error { code := pushMisconfigured, message := "Need to provide AWS keys" }
  else
    match cfg.pushTypes with
    | none =>
        Except.ok { availablePushTypes := [], iosConfig := IOSPushConfig.multiple [],
                    androidConfig := { ARN := "" } }
    | some pts =>
        if pts.keys.all (fun k => validPushTypes.contains k) then
          Except.ok { availablePushTypes := pts.keys, iosConfig := pts.ios,
                      androidConfig := pts.android }
        else
          Except.error { code := pushMisconfigured,
                         message := "Push to " ++ joinComma pts.keys ++ " is not supported" }

/-- The installations argument of send: either a plain array, or an
object carrying the array under an arn property (the branch at the top of
send that rebinds installations and overwrites device tokens). -/
inductive Installations where
  | plain (l : List Device)
  | withArn (l : List Device)

/-- The preprocessing at the top of send: a plain array is used as is;
for the arn variant the deviceToken of every record is overwritten in
place with the topicArn of that record. -/
def preprocessInstallations : Installations → List Device
  | .plain l => l
  | .withArn l => l.map (fun d => { d with deviceToken := d.topicArn })

/-- Modelled from the spec: utils.classifyInstallations of the external
parse-server-push-adapter partitions the installations into one bucket
per available push type by their deviceType, preserving input order and
dropping installations of unavailable types (spec 4.2). -/
def classifyInstallations (installations : List Device) (validTypes : List String) :
    List (String × List Device) :=
  validTypes.map (fun t => (t, installations.filter (fun d => d.deviceType == t)))

/-- Observable behaviour of one send call.  promiseValue is the value the
returned promise resolves with: the source computes sendPromises with
Array.prototype.forEach, whose result is undefined, and returns
Parse.Promise.when(undefined), which resolves immediately with no
delivery outcome in it; none models that undefined value.  The field
installationsAfter is the post-call state of the supplied installation
records, and groups collects the per-platform group results whose
promises the source discards. -/
structure SendRun where
  promiseValue : Option (List DeliveryResponse)
  installationsAfter : List Device
  groups : List GroupResult

/-- All SNS calls a send run issued. -/
def SendRun.calls (r : SendRun) : List SnsCall :=
  concatAll (r.groups.map GroupResult.calls)

/-- All per-device publish-promise settlements a send run produced. -/
def SendRun.deviceOutcomes (r : SendRun) :
    List (POutcome DeliveryResponse DeliveryResponse) :=
  concatAll (r.groups.map GroupResult.deviceOutcomes)

/-- SNSPushAdapter.prototype.send: preprocess the installations, classify
them by available push type, dispatch each bucket through the senderMap
(ios to sendToAPNS, android to sendToGCM), and return the promise
described at SendRun.promiseValue. -/
def send (env : SnsEnv) (adapter : Adapter) (data : NotifData) (seed now : Nat)
    (installations : Installations) : SendRun :=
  let devices := preprocessInstallations installations
  let deviceMap := classifyInstallations devices adapter.availablePushTypes
  let groups := concatAll (deviceMap.map (fun td =>
    if td.1 == "ios" then sendToAPNS env data adapter.iosConfig td.2
    else if td.1 == "android" then
      [sendToGCM env data seed now adapter.androidConfig td.2]
    else []))
  { promiseValue := none, installationsAfter := devices, groups := groups }

/-! Concrete instances used by the end-to-end scenario, the witnesses and
the counterexamples. -/

/-- An SNS client for which every call succeeds. -/
def envAllOk : SnsEnv :=
  { createEndpoint := fun _ token =>
      { err := none, data := some { EndpointArn := some ("endpoint:" ++ token) } },
    setAttrs := fun _ => { err := none, data := some () },
    publish := fun _ => { err := none, data := some { MessageId := some "mid-1" } } }

/-- An SNS client whose setEndpointAttributes succeeds with a null data
value. -/
def envNullAttrData : SnsEnv :=
  { createEndpoint := fun _ token =>
      { err := none, data := some { EndpointArn := some ("endpoint:" ++ token) } },
    setAttrs := fun _ => { err := none, data := none },
    publish := fun _ => { err := none, data := some { MessageId := some "mid-1" } } }

/-- An SNS client whose createPlatformEndpoint fails. -/
def envCreateFail : SnsEnv :=
  { createEndpoint := fun _ _ =>
      { err := some { message := "create failed", stack := none }, data := none },
    setAttrs := fun _ => { err := none, data := some () },
    publish := fun _ => { err := none, data := some { MessageId := some "mid-1" } } }

/-- The single iOS bundle configuration of the end-to-end scenario. -/
def cfgComA : IOSConfig := { production := true, bundleId := "com.a", ARN := "arn-ios-app" }

/-- Adapter of the end-to-end scenario: one iOS bundle config for
"com.a" with production true, plus an android config. -/
def demoAdapter : Adapter :=
  { availablePushTypes := ["ios", "android"],
    iosConfig := IOSPushConfig.single cfgComA,
    androidConfig := { ARN := "arn-android-app" } }

/-- A notification body for the scenario. -/
def demoData : NotifData :=
  { data := Json.obj [("alert", Json.str "hi")], expirationTime := none }

/-- iOS device with appIdentifier "com.a". -/
def dIos1 : Device :=
  { deviceType := "ios", deviceToken := "tokenA", appIdentifier := "com.a", topicArn := "" }

/-- iOS device with no appIdentifier. -/
def dIos2 : Device :=
  { deviceType := "ios", deviceToken := "tokenB", appIdentifier := "", topicArn := "" }

/-- Android device. -/
def dAndroid : Device :=
  { deviceType := "android", deviceToken := "tokenC", appIdentifier := "", topicArn := "" }

/-- A device whose token is already a topic handle. -/
def deviceArn : Device :=
  { deviceType := "ios", deviceToken := "tok", appIdentifier := "",
    topicArn := "arn:aws:sns:mytopic" }

/-! Helper lemmas. -/

/-- Mask the push_id and time entries of an object one level down, used
to state that two android payloads differ only in those fields. -/
def maskInner : List (String × Json) → List (String × Json)
  | [] => []
  | kv :: rest =>
      (if kv.1 == "push_id" || kv.1 == "time" then (kv.1, Json.str "#") else kv) ::
        maskInner rest

/-- Mask the push_id and time entries of a payload object: entries whose
value is an object are masked inside with maskInner, all others are kept
as they are. -/
def maskFields : List (String × Json) → List (String × Json)
  | [] => []
  | kv :: rest =>
      (match kv with
       | (k, Json.obj inner) => (k, Json.obj (maskInner inner))
       | other => other) :: maskFields rest

/-- Length of a modelled random string. -/
theorem randomString_length (n seed : Nat) : (randomString n seed).length = n := by
  simp [randomString, String.length]

/-- Concatenating singleton lists is mapping. -/
theorem concatAll_map_singleton (l : List α) (g : α → β) :
    concatAll (l.map (fun a => [g a])) = l.map g := by
  induction l with
  | nil => rfl
  | cons a as ih => simp [concatAll, ih]

/-- Data of a string concatenation. -/
theorem string_data_append (a b : String) : (a ++ b).data = a.data ++ b.data := by
  cases a
  cases b
  rfl

/-- Membership in a comma join yields a substring decomposition. -/
theorem joinComma_contains (p : String) (keys : List String) (hp : p ∈ keys) :
    ∃ s t, (joinComma keys).data = s ++ p.data ++ t := by
  induction keys with
  | nil => cases hp
  | cons k rest ih =>
    cases rest with
    | nil =>
      have hk : p = k := by simpa using hp
      subst hk
      exact ⟨[], [], by simp [joinComma]⟩
    | cons r rs =>
      rcases List.mem_cons.mp hp with hk | hr
      · subst hk
        exact ⟨[], ",".data ++ (joinComma (r :: rs)).data,
               by simp [joinComma, string_data_append, List.append_assoc]⟩
      · obtain ⟨s, t, hst⟩ := ih hr
        exact ⟨(k.data ++ ",".data) ++ s, t,
               by simp [joinComma, string_data_append, hst, List.append_assoc]⟩

/-! Claim theorems. -/

/-- C6: for every notification body and production flag, the iOS payload
framer keys the compiled notification under APNS when production is true
and under APNS_SANDBOX when it is false (never the other key), and always
carries a default entry with value sns. -/
theorem c6_ios_payload_keys (data : NotifData) (production : Bool) :
    List.lookup (if production then "APNS" else "APNS_SANDBOX")
      (generateiOSPayload data production) = some (compileAPNS data) ∧
    List.lookup (if production then "APNS_SANDBOX" else "APNS")
      (generateiOSPayload data production) = none ∧
    List.lookup "default" (generateiOSPayload data production) = some (Json.str "sns") := by
  cases production <;> exact ⟨rfl, rfl, rfl⟩

/-- C7: for every notification body, the Android framer returns exactly
one GCM entry whose value is a string obtained by stringifying a JSON
object that carries the android-native fields (priority and a data object
holding the push id and the timestamp) plus a default entry with value
sns; with no idempotency token supplied a random token of length 10 is
generated, and two runs on the same input agree after masking the token
and the timestamp fields. -/
theorem c7_android_framing (data : NotifData) (seed₁ now₁ seed₂ now₂ : Nat) :
    ∃ s₁ s₂ p₁ p₂,
      generateAndroidPayload data none none seed₁ now₁ = [("GCM", Json.str s₁)] ∧
      generateAndroidPayload data none none seed₂ now₂ = [("GCM", Json.str s₂)] ∧
      s₁ = stringify (Json.obj p₁) ∧
      s₂ = stringify (Json.obj p₂) ∧
      List.lookup "default" p₁ = some (Json.str "sns") ∧
      List.lookup "priority" p₁ = some (Json.str "normal") ∧
      (∃ inner, List.lookup "data" p₁ = some (Json.obj inner) ∧
        List.lookup "push_id" inner = some (Json.str (randomString 10 seed₁)) ∧
        List.lookup "time" inner = some (Json.num now₁)) ∧
      (randomString 10 seed₁).length = 10 ∧
      maskFields p₁ = maskFields p₂ := by
  refine ⟨_, _, _, _, rfl, rfl, rfl, rfl, rfl, rfl, ⟨_, rfl, rfl, rfl⟩, ?_, rfl⟩
  exact randomString_length 10 seed₁

/-- C5 statement: a device with an empty appIdentifier is in the subset
of every bundle configuration; a device with a nonempty appIdentifier is
in the subset exactly when the bundleId of the configuration equals it. -/
def C5Prop (iosConfig : IOSConfig) (devices : List Device) (device : Device) : Prop :=
  (device.appIdentifier = "" → device ∈ iosDeviceSends iosConfig devices) ∧
  (device.appIdentifier ≠ "" →
    (device ∈ iosDeviceSends iosConfig devices ↔
      iosConfig.bundleId = device.appIdentifier))

/-- C5: for every iOS bundle configuration, an installation with an
absent or empty appIdentifier is included in the send subset of every
bundle, and one with appIdentifier X is included exactly in the subset of
the configuration whose bundle identifier equals X. -/
theorem c5_ios_bundle_filtering (iosConfig : IOSConfig) (devices : List Device)
    (device : Device) (h : device ∈ devices) : C5Prop iosConfig devices device := by
  unfold C5Prop iosDeviceSends
  constructor
  · intro happ
    exact List.mem_filter.mpr ⟨h, by simp [happ]⟩
  · intro happ
    constructor
    · intro hmem
      have hp := (List.mem_filter.mp hmem).2
      simp [happ] at hp
      exact hp.symm
    · intro hb
      exact List.mem_filter.mpr ⟨h, by simp [hb]⟩

/-- C5 witness: the theorem applied to the scenario devices and bundle
configuration. -/
theorem c5_ios_bundle_filtering_witness :
    dIos1 ∈ [dIos1, dIos2] ∧ C5Prop cfgComA [dIos1, dIos2] dIos1 :=
  ⟨by decide, c5_ios_bundle_filtering cfgComA [dIos1, dIos2] dIos1 (by decide)⟩

/-- C2 statement: for a targeted-endpoint device the first SNS call is
setEndpointAttributes with Enabled true; when that call errors the device
promise rejects with transmitted false and no publish call is in the
trace; when it succeeds with a data value the trace is exactly setAttrs
then publish and the settlement is the publish settlement; and the
publish settlement carries transmitted true with the data on success and
transmitted false with the stack text on error. -/
def C2Prop (env : SnsEnv) (arn : String) (payload : List (String × Json))
    (device : Device) : Prop :=
  ((sendSNSPayload env arn payload device).2.head? =
      some (SnsCall.setAttrs arn "true")) ∧
  (∀ e, (env.setAttrs arn).err = some e →
    sendSNSPayload env arn payload device =
      (POutcome.rejected
        { device := respDevice device, transmitted := false,
          response := e.stack.map RespVal.stack },
       [SnsCall.setAttrs arn "true"])) ∧
  (∀ e, (env.setAttrs arn).err = some e →
    ∀ object, SnsCall.publish object ∉ (sendSNSPayload env arn payload device).2) ∧
  (∀ d, (env.setAttrs arn).err = none → (env.setAttrs arn).data = some d →
    sendSNSPayload env arn payload device =
      (publishOutcome (respDevice device)
         (env.publish (buildPublishObject arn payload device)),
       [SnsCall.setAttrs arn "true",
        SnsCall.publish (buildPublishObject arn payload device)])) ∧
  (∀ rdev r,
    (∀ e, PublishResult.err r = some e → publishOutcome rdev r =
      POutcome.rejected
        { device := rdev, transmitted := false, response := e.stack.map RespVal.stack }) ∧
    (PublishResult.err r = none → publishOutcome rdev r =
      POutcome.resolved
        { device := rdev, transmitted := true,
          response := (PublishResult.data r).map RespVal.pubData }))

/-- C2: for every targeted-endpoint (non-topic) device send, the
dispatcher calls set-endpoint-attributes with Enabled true before any
publish; on its failure the outcome has transmitted false and publish is
never invoked; on its success publish is attempted and the outcome
reflects the success or failure of the publish call itself. -/
theorem c2_attrs_before_publish (env : SnsEnv) (arn : String)
    (payload : List (String × Json)) (device : Device)
    (h : startsWithArn device.deviceToken = false) :
    C2Prop env arn payload device := by
  have hobj : (buildPublishObject arn payload device).TopicArn = none := by
    simp [buildPublishObject, h]
  refine ⟨?_, ?_, ?_, ?_, ?_⟩
  · cases herr : (env.setAttrs arn).err with
    | some e => simp [sendSNSPayload, hobj, herr]
    | none =>
      cases hdata : (env.setAttrs arn).data with
      | some d => simp [sendSNSPayload, hobj, herr, hdata]
      | none => simp [sendSNSPayload, hobj, herr, hdata]
  · intro e he
    simp [sendSNSPayload, hobj, he]
  · intro e he object hmem
    simp [sendSNSPayload, hobj, he] at hmem
  · intro d he hd
    simp [sendSNSPayload, hobj, he, hd]
  · intro rdev r
    constructor
    · intro e he
      simp [publishOutcome, he]
    · intro he
      simp [publishOutcome, he]

/-- C2 witness: the theorem applied to a raw-token device and the
all-success client. -/
theorem c2_attrs_before_publish_witness :
    startsWithArn dIos1.deviceToken = false ∧ C2Prop envAllOk "ep-1" [] dIos1 :=
  ⟨by decide, c2_attrs_before_publish envAllOk "ep-1" [] dIos1 (by decide)⟩

/-- C3 statement: the exchange resolves to the topicArn of the device
with an empty call trace, the publish object carries TopicArn (the device
token) and no TargetArn, and sendSNSPayload goes straight to one publish
call whose settlement it returns. -/
def C3Prop (env : SnsEnv) (platformARN arn : String) (payload : List (String × Json))
    (device : Device) : Prop :=
  exchangeTokenPromise env device platformARN =
    (Except.ok { device := device, arn := device.topicArn }, []) ∧
  (buildPublishObject arn payload device).TopicArn = some device.deviceToken ∧
  (buildPublishObject arn payload device).TargetArn = none ∧
  sendSNSPayload env arn payload device =
    (publishOutcome (respDevice device)
       (env.publish (buildPublishObject arn payload device)),
     [SnsCall.publish (buildPublishObject arn payload device)])

/-- C3: for every device whose token starts with "arn", resolution
settles without any create-endpoint call, to the pre-known topic handle;
the publish sets TopicArn rather than TargetArn; and the re-enable step
is skipped entirely, publish being attempted directly. -/
theorem c3_topic_handle_path (env : SnsEnv) (platformARN arn : String)
    (payload : List (String × Json)) (device : Device)
    (h : startsWithArn device.deviceToken = true) :
    C3Prop env platformARN arn payload device := by
  have hobj : (buildPublishObject arn payload device).TopicArn = some device.deviceToken ∧
      (buildPublishObject arn payload device).TargetArn = none := by
    constructor <;> simp [buildPublishObject, h]
  refine ⟨?_, hobj.1, hobj.2, ?_⟩
  · simp [exchangeTokenPromise, h]
  · simp [sendSNSPayload, hobj.1]

/-- C3 witness: the theorem applied to a device whose token is a topic
handle. -/
theorem c3_topic_handle_path_witness :
    startsWithArn deviceArn.topicArn = true ∧
    C3Prop envAllOk "app-arn" "ep-1" []
      { deviceArn with deviceToken := deviceArn.topicArn } :=
  ⟨by decide,
   c3_topic_handle_path envAllOk "app-arn" "ep-1" []
     { deviceArn with deviceToken := deviceArn.topicArn } (by decide)⟩

/-- C10 statement: the per-device promise stays pending and the trace is
exactly the setAttrs call, so no publish happened and no outcome record
exists. -/
def C10Prop (env : SnsEnv) (arn : String) (payload : List (String × Json))
    (device : Device) : Prop :=
  (sendSNSPayload env arn payload device).1 = POutcome.pending ∧
  (sendSNSPayload env arn payload device).2 = [SnsCall.setAttrs arn "true"]

/-- C10: for every targeted-endpoint device send in which the
set-endpoint-attributes call succeeds but hands a null data value to the
callback, the per-device promise neither resolves nor rejects, no publish
is attempted and no delivery outcome is produced. -/
theorem c10_null_attr_data_pending (env : SnsEnv) (arn : String)
    (payload : List (String × Json)) (device : Device)
    (h1 : startsWithArn device.deviceToken = false)
    (h2 : (env.setAttrs arn).err = none)
    (h3 : (env.setAttrs arn).data = none) :
    C10Prop env arn payload device := by
  have hobj : (buildPublishObject arn payload device).TopicArn = none := by
    simp [buildPublishObject, h1]
  constructor <;> simp [sendSNSPayload, hobj, h2, h3]

/-- C10 witness: the theorem applied to the client whose
setEndpointAttributes yields neither an error nor data. -/
theorem c10_null_attr_data_pending_witness :
    startsWithArn dIos1.deviceToken = false ∧
    (envNullAttrData.setAttrs "ep-1").err = none ∧
    (envNullAttrData.setAttrs "ep-1").data = none ∧
    C10Prop envNullAttrData "ep-1" [] dIos1 :=
  ⟨by decide, rfl, rfl,
   c10_null_attr_data_pending envNullAttrData "ep-1" [] dIos1 (by decide) rfl rfl⟩

/-- Whether the createPlatformEndpoint result for a device fails to carry
a truthy EndpointArn, which makes the exchange promise of a raw-token
device reject. -/
def createFails (env : SnsEnv) (platformArn : String) (device : Device) : Bool :=
  ((env.createEndpoint platformArn device.deviceToken).data.bind
    (fun d => truthyArn d.EndpointArn)).isNone

/-- Call trace of a raw-token exchange: exactly one createPlatformEndpoint
call. -/
theorem exchange_raw_calls (env : SnsEnv) (device : Device) (platformArn : String)
    (h : startsWithArn device.deviceToken = false) :
    (exchangeTokenPromise env device platformArn).2 =
      [SnsCall.createEndpoint platformArn device.deviceToken] := by
  simp [exchangeTokenPromise, h]

/-- A raw-token exchange with a failing createPlatformEndpoint result is a
rejection. -/
theorem exchange_raw_failed (env : SnsEnv) (device : Device) (platformArn : String)
    (h : startsWithArn device.deviceToken = false)
    (hf : createFails env platformArn device = true) :
    exchangeFailed (exchangeTokenPromise env device platformArn).1 = true := by
  unfold createFails at hf
  rw [Option.isNone_iff_eq_none] at hf
  simp [exchangeTokenPromise, h, hf, exchangeFailed, exchangeOk]

/-- C4 statement: the group trace is exactly one createPlatformEndpoint
call per device, the group promise rejects, no device settlement exists
and no publish call is in the trace. -/
def C4Prop (env : SnsEnv) (payload : List (String × Json)) (devices : List Device)
    (platformArn : String) : Prop :=
  (sendToSNS env payload devices platformArn).calls =
    devices.map (fun d => SnsCall.createEndpoint platformArn d.deviceToken) ∧
  (∃ errs, (sendToSNS env payload devices platformArn).outcome = Except.error errs) ∧
  (sendToSNS env payload devices platformArn).deviceOutcomes = [] ∧
  (∀ object, SnsCall.publish object ∉ (sendToSNS env payload devices platformArn).calls)

/-- C4: for every group of devices with raw tokens, resolution issues one
create-endpoint call per device, and if any single create-endpoint call
fails the group promise rejects and no publish is attempted for any
device of the group. -/
theorem c4_exchange_fail_fast (env : SnsEnv) (payload : List (String × Json))
    (devices : List Device) (platformArn : String)
    (hraw : ∀ d ∈ devices, startsWithArn d.deviceToken = false)
    (hfail : ∃ d ∈ devices, createFails env platformArn d = true) :
    C4Prop env payload devices platformArn := by
  obtain ⟨d0, hd0, hcf⟩ := hfail
  have hany :
      ((devices.map (fun device => exchangeTokenPromise env device platformArn)).map
        Prod.fst).any exchangeFailed = true := by
    rw [List.map_map]
    refine List.any_eq_true.mpr
      ⟨(Prod.fst ∘ fun device => exchangeTokenPromise env device platformArn) d0,
       List.mem_map_of_mem _ hd0, ?_⟩
    exact exchange_raw_failed env d0 platformArn (hraw d0 hd0) hcf
  have hcalls :
      concatAll ((devices.map (fun device => exchangeTokenPromise env device platformArn)).map
        Prod.snd) =
      devices.map (fun d => SnsCall.createEndpoint platformArn d.deviceToken) := by
    rw [List.map_map]
    have hc : (Prod.snd ∘ fun device => exchangeTokenPromise env device platformArn) =
        fun d => (exchangeTokenPromise env d platformArn).2 := rfl
    rw [hc]
    rw [List.map_congr_left (fun d hd =>
      exchange_raw_calls env d platformArn (hraw d hd))]
    exact concatAll_map_singleton devices _
  have hsend : sendToSNS env payload devices platformArn =
      { outcome := Except.error
          (((devices.map (fun device => exchangeTokenPromise env device platformArn)).map
            Prod.fst).filterMap exchangeErr),
        calls := devices.map (fun d => SnsCall.createEndpoint platformArn d.deviceToken),
        deviceOutcomes := [] } := by
    rw [sendToSNS]
    simp only [hany, if_true, hcalls]
  unfold C4Prop
  rw [hsend]
  refine ⟨rfl, ⟨_, rfl⟩, rfl, ?_⟩
  intro object hmem
  have hmem2 : SnsCall.publish object ∈
      devices.map (fun d => SnsCall.createEndpoint platformArn d.deviceToken) := hmem
  obtain ⟨d, _, he⟩ := List.mem_map.mp hmem2
  exact SnsCall.noConfusion he

/-- C4 witness: the theorem applied to two raw-token devices and the
client whose createPlatformEndpoint fails. -/
theorem c4_exchange_fail_fast_witness :
    (∀ d ∈ [dIos1, dIos2], startsWithArn d.deviceToken = false) ∧
    (∃ d ∈ [dIos1, dIos2], createFails envCreateFail "app-arn" d = true) ∧
    C4Prop envCreateFail [] [dIos1, dIos2] "app-arn" :=
  ⟨by decide, by decide,
   c4_exchange_fail_fast envCreateFail [] [dIos1, dIos2] "app-arn"
     (by decide) (by decide)⟩

/-- A message names a platform when the platform string occurs in it. -/
def NamesPlatform (msg p : String) : Prop :=
  ∃ s t, msg.data = s ++ p.data ++ t

/-- A configuration with an unsupported platform but no access key. -/
def cfgNoKeys : PushConfig :=
  { accessKey := "", secretKey := "secret",
    pushTypes := some { keys := ["windows"], ios := IOSPushConfig.multiple [],
                        android := { ARN := "" } } }

/-- C8 counterexample: with a missing access key and pushTypes containing
the unsupported platform "windows", construction fails with the fixed
AWS-keys message, which does not name "windows", so the claim as stated
is false at this configuration. -/
theorem c8_counterexample :
    initAdapter cfgNoKeys =
      Except.error { code := pushMisconfigured, message := "Need to provide AWS keys" } ∧
    ¬ NamesPlatform "Need to provide AWS keys" "windows" := by
  constructor
  · rfl
  · rintro ⟨s, t, h⟩
    have hw : 'w' ∈ "Need to provide AWS keys".data := by
      rw [h]
      exact List.mem_append.mpr (Or.inl (List.mem_append.mpr (Or.inr (by decide))))
    exact absurd hw (by decide)

/-- C8 amended statement: construction fails with PUSH_MISCONFIGURED and
a message naming the unsupported platform. -/
def C8Prop (cfg : PushConfig) (p : String) : Prop :=
  ∃ e, initAdapter cfg = Except.error e ∧ e.code = pushMisconfigured ∧
    NamesPlatform e.message p

/-- C8 amended: for every configuration with both AWS keys present whose
platform set contains a platform outside ios and android, construction
fails with a MisconfiguredError whose message names that unsupported
platform (with no keys the constructor fails earlier with the AWS-keys
message). -/
theorem c8_unsupported_platform_named (cfg : PushConfig) (pts : PushTypesConfig)
    (p : String)
    (h1 : (cfg.accessKey == "") = false) (h2 : (cfg.secretKey == "") = false)
    (h3 : cfg.pushTypes = some pts) (h4 : p ∈ pts.keys)
    (h5 : validPushTypes.contains p = false) :
    C8Prop cfg p := by
  have hp : p ∉ validPushTypes := by simpa using h5
  refine ⟨{ code := pushMisconfigured,
            message := "Push to " ++ joinComma pts.keys ++ " is not supported" },
          ?_, rfl, ?_⟩
  · simp only [initAdapter, h1, h2, h3, Bool.or_self, Bool.false_or]
    rw [if_neg (by simp)]
    rw [if_neg]
    simp only [List.all_eq_true, not_forall]
    exact ⟨p, h4, by simpa using hp⟩
  · obtain ⟨s, t, hst⟩ := joinComma_contains p pts.keys h4
    exact ⟨"Push to ".data ++ s, t ++ " is not supported".data,
           by simp [string_data_append, hst, List.append_assoc]⟩

/-- A configuration with keys present and an unsupported platform. -/
def cfgWindows : PushConfig :=
  { accessKey := "ak", secretKey := "sk",
    pushTypes := some { keys := ["ios", "windows"], ios := IOSPushConfig.multiple [],
                        android := { ARN := "" } } }

/-- C8 witness: the amended theorem applied to a configuration requesting
ios and windows. -/
theorem c8_unsupported_platform_named_witness :
    (cfgWindows.accessKey == "") = false ∧ (cfgWindows.secretKey == "") = false ∧
    "windows" ∈ ["ios", "windows"] ∧
    validPushTypes.contains "windows" = false ∧
    C8Prop cfgWindows "windows" :=
  ⟨by decide, by decide, by decide, by decide,
   c8_unsupported_platform_named cfgWindows
     { keys := ["ios", "windows"], ios := IOSPushConfig.multiple [],
       android := { ARN := "" } }
     "windows" (by decide) (by decide) rfl (by decide) (by decide)⟩

/-- C9 counterexample: when the installations argument carries its device
list under an arn property, send overwrites the deviceToken of each
record with its topicArn, so the supplied records are changed. -/
theorem c9_counterexample :
    (send envAllOk demoAdapter demoData 0 0
      (Installations.withArn [deviceArn])).installationsAfter ≠ [deviceArn] := by
  decide

/-- C9 amended: send leaves the supplied installation records unchanged
whenever the installations argument is a plain list; when the argument
carries the list under an arn property, the deviceToken of every record
is overwritten with the topicArn of that record and nothing else
changes. -/
theorem c9_installations_read_only (env : SnsEnv) (adapter : Adapter) (data : NotifData)
    (seed now : Nat) (l : List Device) :
    (send env adapter data seed now (Installations.plain l)).installationsAfter = l ∧
    (send env adapter data seed now (Installations.withArn l)).installationsAfter =
      l.map (fun d => { d with deviceToken := d.topicArn }) :=
  ⟨rfl, rfl⟩

/-- C1: in the scenario of two iOS devices (one with bundle "com.a", one
with no appIdentifier) and one Android device under a single iOS bundle
config "com.a" with production true, the pipeline does produce exactly
three per-device outcomes (all resolved under an all-success client), but
the promise send returns resolves with undefined for every client — the
source aggregates the undefined result of forEach, so the promise never
carries the outcome collection and does not wait for the publishes,
contradicting the claim. -/
theorem c1_send_resolves_without_outcomes :
    (∀ env : SnsEnv,
      (send env demoAdapter demoData 0 0
        (Installations.plain [dIos1, dIos2, dAndroid])).promiseValue = none) ∧
    (SendRun.deviceOutcomes (send envAllOk demoAdapter demoData 0 0
      (Installations.plain [dIos1, dIos2, dAndroid]))).length = 3 ∧
    (SendRun.deviceOutcomes (send envAllOk demoAdapter demoData 0 0
      (Installations.plain [dIos1, dIos2, dAndroid]))).all POutcome.isResolved = true :=
  ⟨fun _ => rfl, rfl, rfl⟩

end SNSPush
